import Mathlib

/-
Verification of the authentication/session core of the contacts backend.

The Python source is embedded shallowly: async service methods become pure
state-passing functions over explicit `DB` and `CacheState` values, datetimes
become `Int` UNIX seconds, SQLAlchemy queries become list operations, and the
two cryptographic primitives (bcrypt password checking and the SHA-256 token
digest) are passed in as function parameters, since their internals are not
relevant to any property below.
-/

namespace ContactsApi

/-- Roles of the `UserRole` string enum in src/entity/models.py. -/
inductive UserRole
| user
| moderator
| admin
deriving DecidableEq, Repr

/-- A SQLAlchemy `User` ORM object (src/entity/models.py). `hash_password` and
`confirmed` are `Option`s because `CacheService.get_cached_user` rebuilds a
`User` from the cached `UserResponse` projection, which leaves those two
attributes unset (Python `None`); rows loaded from the users table always
carry `some` values for both. -/
structure User where
  id : Nat
  username : String
  email : String
  hash_password : Option String
  role : UserRole
  avatar : Option String
  confirmed : Option Bool
deriving DecidableEq, Repr

/-- A row of the refresh_tokens table (src/entity/models.py); times are
UNIX seconds. -/
structure RefreshTokenRow where
  id : Nat
  user_id : Nat
  token_hash : String
  created_at : Int
  expired_at : Int
  revoked_at : Option Int
  ip_address : Option String
  user_agent : Option String
deriving DecidableEq, Repr

/-- The relational store: users and refresh_tokens tables. `next_id` models the
autoincrementing primary key of refresh_tokens. -/
structure DB where
  users : List User
  refresh_tokens : List RefreshTokenRow
  next_id : Nat
deriving DecidableEq, Repr

/-- Keys of the localized message dictionaries in src/conf/messages.py. Every
HTTP error detail in the service layer is one fixed dictionary entry, so two
errors carry the identical message string exactly when they carry the same
key. -/
inductive Msg
| authenticate_wrong_user
| authentificate_email_not_confirmed
| user_exists
| mail_exists
| invalid_token
| revoked_token
| validate_credentials
| invalid_refresh_token
| role_access_info
| email_already_confirmed
| email_confirmed
| email_confirm_request
deriving DecidableEq, Repr

/-- Failures that can escape a request handler: a raised fastapi HTTPException
with status code and message key, a Python AttributeError (attribute access on
`None`), or a database integrity error (unique-constraint violation). -/
inductive PyError
| http (status_code : Nat) (detail : Msg)
| attributeError
| integrityError
deriving DecidableEq, Repr

/-- Claim set of an access token. `create_access_token` in
src/services/auth.py encodes the dict with keys sub and exp; iat is kept in the
model so that the presence or absence of an issued-at claim is expressible. -/
structure AccessPayload where
  sub : Option String
  exp : Option Int
  iat : Option Int
deriving DecidableEq, Repr

/-- Symbolic JWT: jwt.encode(payload, key, algorithm) is modelled as the triple
itself, and jwt.decode(token, key, algorithms) succeeds exactly when key and
algorithm match, which is the standard symbolic model of a MAC. -/
structure JwtToken where
  payload : AccessPayload
  key : String
  alg : String
deriving DecidableEq, Repr

/-- The fields of src/conf/config.py consumed by the session core, plus the
cache TTL used by `CacheService`. -/
structure Settings where
  ACCESS_TOKEN_EXPIRE_MINUTES : Int
  REFRESH_TOKEN_EXPIRE_DAYS : Int
  ALGORITHM : String
  SECRET_KEY : String
  REDIS_TTL : Int
deriving DecidableEq, Repr

/-- The `UserResponse` schema (src/schemas/user.py): username, email, id,
avatar, role. It has no password-hash field and no confirmed field; this is
the projection stored in the user cache. -/
structure UserResponse where
  username : String
  email : String
  id : Nat
  avatar : Option String
  role : UserRole
deriving DecidableEq, Repr

/-- Redis state of `CacheService` (src/services/cache.py): the black-list keys
and the user:{username} keys, each paired with its absolute expiry time
(setex key ttl value makes the key live while now < insertion time + ttl). -/
structure CacheState where
  blacklist : List (JwtToken × Int)
  user_cache : List (String × UserResponse × Int)
deriving DecidableEq, Repr

/-- CacheService.is_token_revoked: EXISTS on the black-list key. -/
def CacheState.is_token_revoked (c : CacheState) (token : JwtToken) (now : Int) : Bool :=
  c.blacklist.any fun e => e.1 == token && decide (now < e.2)

/-- CacheService.revoke_token: when expire_at is still in the future, setex the
black-list key with ttl = expire_at - now; otherwise do nothing. -/
def CacheState.revoke_token (c : CacheState) (token : JwtToken) (expire_at now : Int) :
    CacheState :=
  if now < expire_at then
    let ttl := expire_at - now
    { c with blacklist := (token, now + ttl) :: c.blacklist }
  else c

/-- CacheService.get_cached_user, first half: GET user:{username} and
deserialize the stored `UserResponse`. -/
def CacheState.lookup_user (c : CacheState) (username : String) (now : Int) :
    Option UserResponse :=
  (c.user_cache.find? fun e => e.1 == username && decide (now < e.2.2)).map fun e => e.2.1

/-- User(**user_data.model_dump()) in CacheService.get_cached_user: the ORM
`User` rebuilt from the cached projection; hash_password and confirmed are not
among the projection fields, so they stay unset. -/
def UserResponse.to_user (r : UserResponse) : User :=
  { id := r.id, username := r.username, email := r.email, hash_password := none,
    role := r.role, avatar := r.avatar, confirmed := none }

/-- CacheService.get_cached_user. -/
def get_cached_user (c : CacheState) (username : String) (now : Int) : Option User :=
  (c.lookup_user username now).map UserResponse.to_user

/-- UserResponse.from_orm(user) in CacheService.cache_user. -/
def User.to_response (u : User) : UserResponse :=
  { username := u.username, email := u.email, id := u.id, avatar := u.avatar,
    role := u.role }

/-- CacheService.cache_user: setex user:{username} with the configured TTL. -/
def cache_user (s : Settings) (c : CacheState) (u : User) (now : Int) : CacheState :=
  { c with user_cache := (u.username, u.to_response, now + s.REDIS_TTL) :: c.user_cache }

/-- UserRepository.get_by_username (usernames are unique, so the first match
is the only one). -/
def DB.get_by_username (db : DB) (username : String) : Option User :=
  db.users.find? fun u => u.username == username

/-- BaseRepository.get_by_id specialized to the users table. -/
def DB.get_by_id (db : DB) (uid : Nat) : Option User :=
  db.users.find? fun u => u.id == uid

/-- UserRepository.get_user_by_email. -/
def DB.get_user_by_email (db : DB) (email : String) : Option User :=
  db.users.find? fun u => u.email == email

/-- The WHERE clause of RefreshTokenRepository.get_active_token: matching hash,
expired_at strictly in the future, revoked_at IS NULL. -/
def RefreshTokenRow.is_active (r : RefreshTokenRow) (token_hash : String)
    (current_time : Int) : Bool :=
  r.token_hash == token_hash && decide (current_time < r.expired_at) &&
    r.revoked_at == none

/-- RefreshTokenRepository.get_active_token. -/
def DB.get_active_token (db : DB) (token_hash : String) (current_time : Int) :
    Option RefreshTokenRow :=
  db.refresh_tokens.find? fun r => r.is_active token_hash current_time

/-- RefreshTokenRepository.save_token plus BaseRepository.create. The
token_hash column is declared unique in src/entity/models.py, so inserting a
row whose hash already exists is an integrity error at commit. -/
def DB.save_token (db : DB) (user_id : Nat) (token_hash : String) (expired_at : Int)
    (ip_address user_agent : Option String) (now : Int) : Except PyError DB :=
  if db.refresh_tokens.any fun r => r.token_hash == token_hash then
    .error .integrityError
  else
    .ok { db with
      refresh_tokens := db.refresh_tokens ++
        [{ id := db.next_id, user_id := user_id, token_hash := token_hash,
           created_at := now, expired_at := expired_at, revoked_at := none,
           ip_address := ip_address, user_agent := user_agent }],
      next_id := db.next_id + 1 }

/-- RefreshTokenRepository.revoke_token applied to the row found by
get_active_token: set revoked_at on the first row that is active for the given
hash, leave everything else unchanged. -/
def revoke_first_active (token_hash : String) (now : Int) :
    List RefreshTokenRow → List RefreshTokenRow
  | [] => []
  | r :: rs =>
    if r.is_active token_hash now then { r with revoked_at := some now } :: rs
    else r :: revoke_first_active token_hash now rs

/-- Python truthiness of an optional boolean attribute: None and False are
falsy, True is truthy. -/
def truthy : Option Bool → Bool
  | some b => b
  | none => false

/-- AuthService.authenticate: cached profile short-circuits everything; on a
cache miss, look up the user (401 wrong-user if absent), reject unconfirmed
email, check the password with bcrypt (an unset hash attribute would raise),
then cache and return the user. -/
def authenticate (checkpw : String → String → Bool) (s : Settings) (db : DB)
    (cache : CacheState) (username password : String) (now : Int) :
    Except PyError (User × CacheState) :=
  match get_cached_user cache username now with
  | some cached_user => .ok (cached_user, cache)
  | none =>
    match db.get_by_username username with
    | none => .error (.http 401 .authenticate_wrong_user)
    | some user =>
      if truthy user.confirmed = false then
        .error (.http 401 .authentificate_email_not_confirmed)
      else
        match user.hash_password with
        | none => .error .attributeError
        | some hp =>
          if checkpw password hp = false then
            .error (.http 401 .authenticate_wrong_user)
          else
            .ok (user, cache_user s cache user now)

/-- AuthService.create_access_token: to_encode = a dict with sub and exp only,
signed with the configured secret and algorithm. -/
def create_access_token (s : Settings) (username : String) (now : Int) : JwtToken :=
  { payload := { sub := some username,
                 exp := some (now + s.ACCESS_TOKEN_EXPIRE_MINUTES * 60),
                 iat := none },
    key := s.SECRET_KEY, alg := s.ALGORITHM }

/-- AuthService.decode_and_validate_access_token: jwt.decode verifies the
signature and, only when an exp claim is present, its expiry (PyJWT raises
ExpiredSignatureError when exp is at or before now and skips the check when the
claim is absent); any PyJWTError becomes HTTP 401 invalid_token. -/
def decode_and_validate_access_token (s : Settings) (token : JwtToken) (now : Int) :
    Except PyError AccessPayload :=
  if token.key == s.SECRET_KEY && token.alg == s.ALGORITHM then
    match token.payload.exp with
    | some e =>
      if e ≤ now then .error (.http 401 .invalid_token) else .ok token.payload
    | none => .ok token.payload
  else .error (.http 401 .invalid_token)

/-- AuthService.create_refresh_token: the secrets.token_urlsafe(32) draw is
passed in as `secret`; its SHA-256 digest (the `hashFn` parameter) and an
expiry of now + REFRESH_TOKEN_EXPIRE_DAYS days are persisted; the raw secret is
returned. -/
def create_refresh_token (hashFn : String → String) (s : Settings) (db : DB)
    (user_id : Nat) (secret : String) (ip_address user_agent : Option String)
    (now : Int) : Except PyError (String × DB) :=
  let token_hash := hashFn secret
  let expired_at := now + s.REFRESH_TOKEN_EXPIRE_DAYS * 86400
  match db.save_token user_id token_hash expired_at ip_address user_agent now with
  | .error e => .error e
  | .ok db1 => .ok (secret, db1)

/-- AuthService.get_current_user: black-list check first, then decode, then the
sub claim, then profile cache, then the users table; a fresh lookup is cached
before returning. -/
def get_current_user (s : Settings) (db : DB) (cache : CacheState) (token : JwtToken)
    (now : Int) : Except PyError (User × CacheState) :=
  if cache.is_token_revoked token now then .error (.http 401 .revoked_token)
  else
    match decode_and_validate_access_token s token now with
    | .error e => .error e
    | .ok payload =>
      match payload.sub with
      | none => .error (.http 401 .validate_credentials)
      | some username =>
        match get_cached_user cache username now with
        | some cached_user => .ok (cached_user, cache)
        | none =>
          match db.get_by_username username with
          | none => .error (.http 401 .validate_credentials)
          | some user => .ok (user, cache_user s cache user now)

/-- AuthService.validate_refresh_token: hash the input, look up an active row,
then the owning user; either miss is HTTP 401 invalid_refresh_token. -/
def validate_refresh_token (hashFn : String → String) (db : DB) (token : String)
    (now : Int) : Except PyError User :=
  match db.get_active_token (hashFn token) now with
  | none => .error (.http 401 .invalid_refresh_token)
  | some rt =>
    match db.get_by_id rt.user_id with
    | none => .error (.http 401 .invalid_refresh_token)
    | some user => .ok user

/-- AuthService.revoke_refresh_token: re-resolve the active row by hash and set
revoked_at on it; a no-op when no active row exists. -/
def revoke_refresh_token (hashFn : String → String) (db : DB) (token : String)
    (now : Int) : DB :=
  { db with refresh_tokens := revoke_first_active (hashFn token) now db.refresh_tokens }

/-- AuthService.revoke_access_token: decode (which itself raises 401 on an
expired token), read the exp claim, and when exp is truthy (present and
nonzero, by Python truthiness of ints) black-list the raw token until exp. -/
def revoke_access_token (s : Settings) (cache : CacheState) (token : JwtToken)
    (now : Int) : Except PyError CacheState :=
  match decode_and_validate_access_token s token now with
  | .error e => .error e
  | .ok payload =>
    match payload.exp with
    | some e =>
      if e == 0 then .ok cache else .ok (cache.revoke_token token e now)
    | none => .ok cache

/-- Body of the /auth/login and /auth/refresh responses (src/schemas/token.py). -/
structure TokenResponse where
  access_token : JwtToken
  token_type : String
  refresh_token : String
deriving DecidableEq, Repr

/-- POST /auth/refresh (src/routes/auth.py): validate the old secret, mint a
new access token, persist a brand-new refresh row with a fresh random secret
(passed in as `fresh_secret`), revoke the old row, return both new tokens. -/
def refresh (hashFn : String → String) (s : Settings) (db : DB)
    (old_secret fresh_secret : String) (ip_address user_agent : Option String)
    (now : Int) : Except PyError (TokenResponse × DB) :=
  match validate_refresh_token hashFn db old_secret now with
  | .error e => .error e
  | .ok user =>
    let new_access_token := create_access_token s user.username now
    match create_refresh_token hashFn s db user.id fresh_secret ip_address user_agent now with
    | .error e => .error e
    | .ok (new_refresh_token, db1) =>
      let db2 := revoke_refresh_token hashFn db1 old_secret now
      .ok ({ access_token := new_access_token, token_type := "bearer",
             refresh_token := new_refresh_token }, db2)

/-- POST /auth/logout (src/routes/auth.py): validate that the refresh token is
the active one, black-list the access token, revoke the refresh row. -/
def logout (hashFn : String → String) (s : Settings) (db : DB) (cache : CacheState)
    (refresh_secret : String) (token : JwtToken) (now : Int) :
    Except PyError (DB × CacheState) :=
  match validate_refresh_token hashFn db refresh_secret now with
  | .error e => .error e
  | .ok _user =>
    match revoke_access_token s cache token now with
    | .error e => .error e
    | .ok cache1 => .ok (revoke_refresh_token hashFn db refresh_secret now, cache1)

/-- get_current_moderator_user (src/core/depend_service.py): 403 when the
resolved role is not in the enumerated list [MODERATOR, ADMIN]. -/
def get_current_moderator_user (current_user : User) : Except PyError User :=
  if ([UserRole.moderator, UserRole.admin].contains current_user.role) = false then
    .error (.http 403 .role_access_info)
  else .ok current_user

/-- get_current_admin_user (src/core/depend_service.py): 403 unless the
resolved role is exactly ADMIN. -/
def get_current_admin_user (current_user : User) : Except PyError User :=
  if current_user.role ≠ UserRole.admin then
    .error (.http 403 .role_access_info)
  else .ok current_user

/-- POST /users/request_email (src/routes/users.py): the handler evaluates
user.confirmed before the `if user:` guard, so an absent user raises
AttributeError on the `None` dereference. The Bool records whether a
confirmation email was queued; a present user is always truthy, so the guard
always queues in the unconfirmed branch. -/
def request_email (db : DB) (email : String) : Except PyError (Msg × Bool) :=
  match db.get_user_by_email email with
  | none => .error .attributeError
  | some user =>
    if truthy user.confirmed then .ok (.email_already_confirmed, false)
    else .ok (.email_confirm_request, true)

/-! ### Concrete instances used by counterexamples and witnesses.
The theorems below are generic in the digest function; witnesses may pick any
concrete one, and the identity map is the simplest injective choice. -/

def identityHash : String → String := fun x => x

def sampleSettings : Settings :=
  { ACCESS_TOKEN_EXPIRE_MINUTES := 15, REFRESH_TOKEN_EXPIRE_DAYS := 7,
    ALGORITHM := "HS256", SECRET_KEY := "service-secret", REDIS_TTL := 900 }

def emptyCache : CacheState := { blacklist := [], user_cache := [] }

def emptyDb : DB := { users := [], refresh_tokens := [], next_id := 0 }

def alice : User :=
  { id := 1, username := "alice", email := "alice@x.com",
    hash_password := some "bcrypt-digest-alice", role := .user, avatar := none,
    confirmed := some true }

def bob : User :=
  { id := 2, username := "bob", email := "bob@x.com",
    hash_password := some "bcrypt-digest-bob", role := .user, avatar := none,
    confirmed := some false }

def aliceRow : RefreshTokenRow :=
  { id := 0, user_id := 1, token_hash := "old-secret", created_at := 0,
    expired_at := 1000000, revoked_at := none, ip_address := none,
    user_agent := none }

def sampleDb : DB := { users := [alice], refresh_tokens := [aliceRow], next_id := 1 }

def dbC5 : DB := { users := [bob], refresh_tokens := [], next_id := 0 }

def dbC6 : DB := { users := [alice], refresh_tokens := [], next_id := 0 }

def respAlice : UserResponse :=
  { username := "alice", email := "alice@x.com", id := 1, avatar := none,
    role := .user }

def cacheC8 : CacheState :=
  { blacklist := [], user_cache := [("alice", respAlice, 100)] }

def freshRow : RefreshTokenRow :=
  { id := 1, user_id := 1, token_hash := "fresh-secret", created_at := 10,
    expired_at := 604810, revoked_at := none, ip_address := none,
    user_agent := none }

def respC1 : TokenResponse :=
  { access_token :=
      { payload := { sub := some "alice", exp := some 910, iat := none },
        key := "service-secret", alg := "HS256" },
    token_type := "bearer", refresh_token := "fresh-secret" }

def dbC1post : DB :=
  { users := [alice],
    refresh_tokens := [{ aliceRow with revoked_at := some 10 }, freshRow],
    next_id := 2 }

def tokC2 : JwtToken :=
  { payload := { sub := some "alice", exp := some 910, iat := none },
    key := "service-secret", alg := "HS256" }

def dbC2post : DB :=
  { users := [alice],
    refresh_tokens := [{ aliceRow with revoked_at := some 10 }], next_id := 1 }

def cacheC2post : CacheState := { blacklist := [(tokC2, 910)], user_cache := [] }

def tokC9 : JwtToken :=
  { payload := { sub := some "alice", exp := none, iat := none },
    key := "service-secret", alg := "HS256" }

def expiredToken : JwtToken :=
  { payload := { sub := some "alice", exp := some 50, iat := none },
    key := "service-secret", alg := "HS256" }

def liveToken : JwtToken :=
  { payload := { sub := some "alice", exp := some 500, iat := none },
    key := "service-secret", alg := "HS256" }

/-! ### Theorems -/

/-- A row whose revoked_at has been set is inactive at every time. -/
theorem is_active_revoked_false (r : RefreshTokenRow) (h : String) (now t : Int) :
    RefreshTokenRow.is_active { r with revoked_at := some now } h t = false := by
  simp [RefreshTokenRow.is_active]

/-- An active row carries the looked-up hash. -/
theorem is_active_hash {r : RefreshTokenRow} {h : String} {t : Int}
    (ha : r.is_active h t = true) : r.token_hash = h := by
  simp [RefreshTokenRow.is_active] at ha
  exact ha.1.1

/-- A row with a different hash never matches the active-row query. -/
theorem is_active_ne_hash {r : RefreshTokenRow} {h : String} (t : Int)
    (hne : r.token_hash ≠ h) : r.is_active h t = false := by
  simp [RefreshTokenRow.is_active, hne]

/-- Core rotation fact: when the stored hashes are pairwise distinct (the
unique constraint on token_hash) and some row is active for `h` at `now`,
then after `revoke_first_active h now` no row of the table is active for `h`
at any time. -/
theorem revoke_first_active_inactive (h : String) (now : Int)
    (l : List RefreshTokenRow)
    (hnd : (l.map RefreshTokenRow.token_hash).Nodup)
    (hex : ∃ r ∈ l, r.is_active h now = true) :
    ∀ t, ∀ x ∈ revoke_first_active h now l, x.is_active h t = false := by
  induction l with
  | nil =>
    rcases hex with ⟨r, hr, _⟩
    cases hr
  | cons r rs ih =>
    intro t x hx
    rw [List.map_cons, List.nodup_cons] at hnd
    obtain ⟨hhead, htail⟩ := hnd
    by_cases hr : r.is_active h now = true
    · rw [revoke_first_active, if_pos hr] at hx
      rcases List.mem_cons.mp hx with rfl | hxs
      · exact is_active_revoked_false r h now t
      · have hrh : r.token_hash = h := is_active_hash hr
        have hxh : x.token_hash ≠ h := by
          intro hcontra
          exact hhead (hrh ▸ hcontra ▸ List.mem_map_of_mem RefreshTokenRow.token_hash hxs)
        exact is_active_ne_hash t hxh
    · rw [revoke_first_active, if_neg hr] at hx
      have hex2 : ∃ r0 ∈ rs, r0.is_active h now = true := by
        rcases hex with ⟨r0, hr0, ha0⟩
        rcases List.mem_cons.mp hr0 with rfl | hmem
        · exact absurd ha0 hr
        · exact ⟨r0, hmem, ha0⟩
      rcases List.mem_cons.mp hx with rfl | hxs
      · obtain ⟨r0, hr0, ha0⟩ := hex2
        have hxh : x.token_hash ≠ h := by
          intro hcontra
          exact hhead (hcontra ▸ (is_active_hash ha0) ▸
            List.mem_map_of_mem RefreshTokenRow.token_hash hr0)
        exact is_active_ne_hash t hxh
      · exact ih htail hex2 t x hxs

/-- The revoked row stays in the table with its revoked_at set. -/
theorem revoke_first_active_mem (h : String) (now : Int) (l : List RefreshTokenRow)
    (hex : ∃ r ∈ l, r.is_active h now = true) :
    ∃ x ∈ revoke_first_active h now l,
      x.token_hash = h ∧ x.revoked_at = some now := by
  induction l with
  | nil =>
    rcases hex with ⟨r, hr, _⟩
    cases hr
  | cons r rs ih =>
    by_cases hr : r.is_active h now = true
    · have hmem : { r with revoked_at := some now } ∈
          revoke_first_active h now (r :: rs) := by
        rw [revoke_first_active, if_pos hr]
        exact List.mem_cons_self _ _
      have hhash : ({ r with revoked_at := some now } : RefreshTokenRow).token_hash
          = h := @is_active_hash r h now hr
      exact ⟨{ r with revoked_at := some now }, hmem, hhash, rfl⟩
    · have hex2 : ∃ r0 ∈ rs, r0.is_active h now = true := by
        rcases hex with ⟨r0, hr0, ha0⟩
        rcases List.mem_cons.mp hr0 with rfl | hmem
        · exact absurd ha0 hr
        · exact ⟨r0, hmem, ha0⟩
      obtain ⟨x, hx, hxh, hxr⟩ := ih hex2
      refine ⟨x, ?_, hxh, hxr⟩
      rw [revoke_first_active, if_neg hr]
      exact List.mem_cons_of_mem r hx

/-- A successful validate_refresh_token exhibits an active row. -/
theorem validate_refresh_token_ok {hashFn : String → String} {db : DB}
    {token : String} {now : Int} {user : User}
    (h : validate_refresh_token hashFn db token now = .ok user) :
    ∃ r ∈ db.refresh_tokens, r.is_active (hashFn token) now = true := by
  rw [validate_refresh_token] at h
  cases hg : db.get_active_token (hashFn token) now with
  | none => rw [hg] at h; cases h
  | some rt =>
    rw [DB.get_active_token] at hg
    have hp := List.find?_some hg
    exact ⟨rt, List.mem_of_find?_eq_some hg, hp⟩

/-- After revoking the (unique-hash) active row, validate_refresh_token on the
same raw secret fails with 401 invalid_refresh_token at every time. -/
theorem validate_after_revoke (hashFn : String → String) (db : DB)
    (token : String) (now : Int)
    (hnd : (db.refresh_tokens.map RefreshTokenRow.token_hash).Nodup)
    (hex : ∃ r ∈ db.refresh_tokens, r.is_active (hashFn token) now = true) :
    ∀ t, validate_refresh_token hashFn (revoke_refresh_token hashFn db token now)
      token t = .error (.http 401 .invalid_refresh_token) := by
  intro t
  have hnone : (revoke_refresh_token hashFn db token now).get_active_token
      (hashFn token) t = none := by
    rw [DB.get_active_token]
    refine List.find?_eq_none.mpr ?_
    intro x hx
    have hfalse := revoke_first_active_inactive (hashFn token) now
      db.refresh_tokens hnd hex t x hx
    simp [hfalse]
  rw [validate_refresh_token, hnone]

/-- A successful decode returns the token payload, certifies the signature
check, and bounds any exp claim strictly above now. -/
theorem decode_ok_inversion {s : Settings} {token : JwtToken} {now : Int}
    {p : AccessPayload}
    (h : decode_and_validate_access_token s token now = .ok p) :
    p = token.payload ∧
    (token.key == s.SECRET_KEY && token.alg == s.ALGORITHM) = true ∧
    ∀ e, token.payload.exp = some e → now < e := by
  by_cases hsig : (token.key == s.SECRET_KEY && token.alg == s.ALGORITHM) = true
  · cases hexp : token.payload.exp with
    | none =>
      rw [decode_and_validate_access_token, if_pos hsig, hexp] at h
      simp at h
      refine ⟨h.symm, hsig, ?_⟩
      intro e he
      cases he
    | some e0 =>
      by_cases hle : e0 ≤ now
      · rw [decode_and_validate_access_token, if_pos hsig, hexp] at h
        simp [hle] at h
      · rw [decode_and_validate_access_token, if_pos hsig, hexp] at h
        simp [hle] at h
        refine ⟨h.symm, hsig, ?_⟩
        intro e he
        cases he
        omega
  · rw [decode_and_validate_access_token, if_neg hsig] at h
    cases h

/-- C1: when a refresh call completes on a valid old refresh secret, the
returned refresh token string differs from the old raw secret, every
subsequent validate_refresh_token on the old raw secret fails with 401
invalid_refresh_token, hence every subsequent refresh on it fails the same
way, and the reason is that the completed refresh left the old row with its
revoked_at set. The Nodup hypothesis is the unique constraint on the
token_hash column. -/
theorem refresh_rotates_and_invalidates_old_secret
    (hashFn : String → String) (s : Settings) (db : DB)
    (old_secret fresh_secret : String) (ip ua : Option String) (now : Int)
    (resp : TokenResponse) (db2 : DB)
    (hnd : (db.refresh_tokens.map RefreshTokenRow.token_hash).Nodup)
    (hok : refresh hashFn s db old_secret fresh_secret ip ua now = .ok (resp, db2)) :
    resp.refresh_token ≠ old_secret ∧
    (∀ t, validate_refresh_token hashFn db2 old_secret t =
      .error (.http 401 .invalid_refresh_token)) ∧
    (∀ t f2 ip2 ua2, refresh hashFn s db2 old_secret f2 ip2 ua2 t =
      .error (.http 401 .invalid_refresh_token)) ∧
    (∃ r ∈ db2.refresh_tokens,
      r.token_hash = hashFn old_secret ∧ r.revoked_at = some now) := by
  cases hval : validate_refresh_token hashFn db old_secret now with
  | error e0 => simp [refresh, hval] at hok
  | ok user =>
    have hex := validate_refresh_token_ok hval
    by_cases hany :
        (db.refresh_tokens.any fun r => r.token_hash == hashFn fresh_secret) = true
    · simp [refresh, hval, create_refresh_token, DB.save_token, hany] at hok
    · rw [Bool.not_eq_true] at hany
      simp [refresh, hval, create_refresh_token, DB.save_token, hany] at hok
      obtain ⟨hresp, hdb2⟩ := hok
      have hnotin : hashFn fresh_secret ∉
          db.refresh_tokens.map RefreshTokenRow.token_hash := by
        intro hmem
        obtain ⟨r, hrmem, hrh⟩ := List.mem_map.mp hmem
        have hfalse := List.any_eq_false.mp hany r hrmem
        simp [hrh] at hfalse
      have hold : hashFn old_secret ∈
          db.refresh_tokens.map RefreshTokenRow.token_hash := by
        obtain ⟨r, hrmem, hra⟩ := hex
        rw [← is_active_hash hra]
        exact List.mem_map_of_mem _ hrmem
      have hne : fresh_secret ≠ old_secret := by
        intro hceq
        rw [hceq] at hnotin
        exact hnotin hold
      have hnd1 : (((db.refresh_tokens ++
          [({ id := db.next_id, user_id := user.id,
              token_hash := hashFn fresh_secret, created_at := now,
              expired_at := now + s.REFRESH_TOKEN_EXPIRE_DAYS * 86400,
              revoked_at := none, ip_address := ip,
              user_agent := ua } : RefreshTokenRow)]).map
            RefreshTokenRow.token_hash)).Nodup := by
        rw [List.map_append]
        refine List.Nodup.append hnd ?_ ?_
        · simp
        · intro a ha hb
          simp at hb
          rw [hb] at ha
          exact hnotin ha
      have hex1 : ∃ r ∈ (db.refresh_tokens ++
          [({ id := db.next_id, user_id := user.id,
              token_hash := hashFn fresh_secret, created_at := now,
              expired_at := now + s.REFRESH_TOKEN_EXPIRE_DAYS * 86400,
              revoked_at := none, ip_address := ip,
              user_agent := ua } : RefreshTokenRow)]),
          r.is_active (hashFn old_secret) now = true := by
        obtain ⟨r, hrmem, hra⟩ := hex
        exact ⟨r, List.mem_append_left _ hrmem, hra⟩
      have hvalid : ∀ t, validate_refresh_token hashFn db2 old_secret t =
          .error (.http 401 .invalid_refresh_token) := by
        intro t
        rw [← hdb2]
        exact validate_after_revoke hashFn _ old_secret now hnd1 hex1 t
      refine ⟨?_, hvalid, ?_, ?_⟩
      · rw [← hresp]
        exact hne
      · intro t f2 ip2 ua2
        simp [refresh, hvalid t]
      · rw [← hdb2]
        exact revoke_first_active_mem (hashFn old_secret) now _ hex1

/-- Witness for C1: a concrete store with one active refresh row, rotated at
time 10 with a fresh secret. -/
theorem refresh_rotates_and_invalidates_old_secret_witness :
    (sampleDb.refresh_tokens.map RefreshTokenRow.token_hash).Nodup ∧
    refresh identityHash sampleSettings sampleDb "old-secret" "fresh-secret"
      none none 10 = .ok (respC1, dbC1post) ∧
    (respC1.refresh_token ≠ "old-secret" ∧
    (∀ t, validate_refresh_token identityHash dbC1post "old-secret" t =
      .error (.http 401 .invalid_refresh_token)) ∧
    (∀ t f2 ip2 ua2, refresh identityHash sampleSettings dbC1post "old-secret"
      f2 ip2 ua2 t = .error (.http 401 .invalid_refresh_token)) ∧
    (∃ r ∈ dbC1post.refresh_tokens,
      r.token_hash = identityHash "old-secret" ∧ r.revoked_at = some 10)) :=
  ⟨by decide, rfl,
    refresh_rotates_and_invalidates_old_secret identityHash sampleSettings
      sampleDb "old-secret" "fresh-secret" none none 10 respC1 dbC1post
      (by decide) rfl⟩

/-- C2: after a logout completes on an access token whose exp has not passed,
get_current_user with that token fails with 401 revoked_token at every time
before exp (for every store — the blacklist check precedes decoding), refresh
and validate_refresh_token with the same refresh secret fail with 401
invalid_refresh_token at every time, and from exp on the blacklist entry and
the token validity lapse together: the entry no longer matches and the decode
fails as expired. -/
theorem logout_revokes_access_and_refresh
    (hashFn : String → String) (s : Settings) (db : DB) (cache : CacheState)
    (refresh_secret : String) (token : JwtToken) (now e : Int)
    (db1 : DB) (cache1 : CacheState)
    (hnd : (db.refresh_tokens.map RefreshTokenRow.token_hash).Nodup)
    (hexp : token.payload.exp = some e)
    (hnow : 0 ≤ now)
    (hclean : ∀ p ∈ cache.blacklist, p.1 ≠ token)
    (hok : logout hashFn s db cache refresh_secret token now = .ok (db1, cache1)) :
    (∀ db0 t, t < e →
      get_current_user s db0 cache1 token t = .error (.http 401 .revoked_token)) ∧
    (∀ t, validate_refresh_token hashFn db1 refresh_secret t =
      .error (.http 401 .invalid_refresh_token)) ∧
    (∀ t f2 ip2 ua2, refresh hashFn s db1 refresh_secret f2 ip2 ua2 t =
      .error (.http 401 .invalid_refresh_token)) ∧
    (∀ t, e ≤ t →
      cache1.is_token_revoked token t = false ∧
      decode_and_validate_access_token s token t =
        .error (.http 401 .invalid_token)) := by
  cases hval : validate_refresh_token hashFn db refresh_secret now with
  | error e0 => simp [logout, hval] at hok
  | ok u =>
    cases hra : revoke_access_token s cache token now with
    | error e0 => simp [logout, hval, hra] at hok
    | ok c1 =>
      have hpair : revoke_refresh_token hashFn db refresh_secret now = db1 ∧
          c1 = cache1 := by
        simpa [logout, hval, hra] using hok
      obtain ⟨hdb1, hc1⟩ := hpair
      cases hd : decode_and_validate_access_token s token now with
      | error e0 => simp [revoke_access_token, hd] at hra
      | ok p =>
        obtain ⟨hp, hsig, hbound⟩ := decode_ok_inversion hd
        subst hp
        have hlt : now < e := hbound e hexp
        have he0 : (e == 0) = false := by
          simp only [beq_eq_false_iff_ne, ne_eq]
          omega
        have hc1eq : c1 = CacheState.revoke_token cache token e now := by
          have hra2 := hra
          simp [revoke_access_token, hd, hexp, he0] at hra2
          exact hra2.symm
        have harith : now + (e - now) = e := by omega
        have hbl : cache1.blacklist = (token, e) :: cache.blacklist := by
          rw [← hc1, hc1eq]
          simp [CacheState.revoke_token, hlt, harith]
        refine ⟨?_, ?_, ?_, ?_⟩
        · intro db0 t ht
          have hr : cache1.is_token_revoked token t = true := by
            rw [CacheState.is_token_revoked, hbl]
            simp [ht]
          simp [get_current_user, hr]
        · intro t
          rw [← hdb1]
          exact validate_after_revoke hashFn db refresh_secret now hnd
            (validate_refresh_token_ok hval) t
        · intro t f2 ip2 ua2
          have hv : validate_refresh_token hashFn db1 refresh_secret t =
              .error (.http 401 .invalid_refresh_token) := by
            rw [← hdb1]
            exact validate_after_revoke hashFn db refresh_secret now hnd
              (validate_refresh_token_ok hval) t
          simp [refresh, hv]
        · intro t hte
          constructor
          · rw [CacheState.is_token_revoked, hbl]
            refine List.any_eq_false.mpr ?_
            intro q hq
            rcases List.mem_cons.mp hq with rfl | hmem
            · simp
              omega
            · simp [hclean q hmem]
          · simp [decode_and_validate_access_token, hsig, hexp, hte]

/-- Witness for C2: logging out alice at time 10 with an access token expiring
at 910 and the active refresh secret. -/
theorem logout_revokes_access_and_refresh_witness :
    (sampleDb.refresh_tokens.map RefreshTokenRow.token_hash).Nodup ∧
    tokC2.payload.exp = some 910 ∧
    (0 : Int) ≤ 10 ∧
    (∀ p ∈ emptyCache.blacklist, p.1 ≠ tokC2) ∧
    logout identityHash sampleSettings sampleDb emptyCache "old-secret" tokC2 10 =
      .ok (dbC2post, cacheC2post) ∧
    ((∀ db0 t, t < 910 →
      get_current_user sampleSettings db0 cacheC2post tokC2 t =
        .error (.http 401 .revoked_token)) ∧
    (∀ t, validate_refresh_token identityHash dbC2post "old-secret" t =
      .error (.http 401 .invalid_refresh_token)) ∧
    (∀ t f2 ip2 ua2, refresh identityHash sampleSettings dbC2post "old-secret"
      f2 ip2 ua2 t = .error (.http 401 .invalid_refresh_token)) ∧
    (∀ t, (910 : Int) ≤ t →
      cacheC2post.is_token_revoked tokC2 t = false ∧
      decode_and_validate_access_token sampleSettings tokC2 t =
        .error (.http 401 .invalid_token))) :=
  ⟨by decide, rfl, by decide, by simp [emptyCache], rfl,
    logout_revokes_access_and_refresh identityHash sampleSettings sampleDb
      emptyCache "old-secret" tokC2 10 910 dbC2post cacheC2post
      (by decide) rfl (by decide) (by simp [emptyCache]) rfl⟩

/-- C9: a validly signed token without an exp claim decodes successfully at
every time (it never expires), revoke_access_token on it returns without
touching the blacklist, any completed logout with it leaves the cache exactly
as it was, and get_current_user keeps accepting the token whenever its subject
resolves — the token can never be revoked. -/
theorem no_exp_token_never_expires_never_revoked
    (s : Settings) (cache : CacheState) (token : JwtToken) (now : Int)
    (hkey : token.key = s.SECRET_KEY) (halg : token.alg = s.ALGORITHM)
    (hexp : token.payload.exp = none) :
    (∀ t, decode_and_validate_access_token s token t = .ok token.payload) ∧
    revoke_access_token s cache token now = .ok cache ∧
    (∀ hashFn db refresh_secret db1 cache1,
      logout hashFn s db cache refresh_secret token now = .ok (db1, cache1) →
      cache1 = cache) ∧
    (∀ t username u db0,
      cache.is_token_revoked token t = false →
      token.payload.sub = some username →
      get_cached_user cache username t = none →
      db0.get_by_username username = some u →
      get_current_user s db0 cache token t = .ok (u, cache_user s cache u t)) := by
  have hsig : (token.key == s.SECRET_KEY && token.alg == s.ALGORITHM) = true := by
    simp [hkey, halg]
  have hdec : ∀ t, decode_and_validate_access_token s token t = .ok token.payload := by
    intro t
    simp [decode_and_validate_access_token, hsig, hexp]
  have hrevoke : revoke_access_token s cache token now = .ok cache := by
    simp [revoke_access_token, hdec now, hexp]
  refine ⟨hdec, hrevoke, ?_, ?_⟩
  · intro hashFn db refresh_secret db1 cache1 hok
    cases hval : validate_refresh_token hashFn db refresh_secret now with
    | error e0 => simp [logout, hval] at hok
    | ok u =>
      have hpair : revoke_refresh_token hashFn db refresh_secret now = db1 ∧
          cache = cache1 := by
        simpa [logout, hval, hrevoke] using hok
      exact hpair.2.symm
  · intro t username u db0 hnr hsub hmiss hfound
    simp [get_current_user, hnr, hdec t, hsub, hmiss, hfound]

/-- Witness for C9: a signed token with sub = alice and no exp claim, against
the sample store at time 10. -/
theorem no_exp_token_never_expires_never_revoked_witness :
    tokC9.key = sampleSettings.SECRET_KEY ∧
    tokC9.alg = sampleSettings.ALGORITHM ∧
    tokC9.payload.exp = none ∧
    ((∀ t, decode_and_validate_access_token sampleSettings tokC9 t =
      .ok tokC9.payload) ∧
    revoke_access_token sampleSettings emptyCache tokC9 10 = .ok emptyCache ∧
    (∀ hashFn db refresh_secret db1 cache1,
      logout hashFn sampleSettings db emptyCache refresh_secret tokC9 10 =
        .ok (db1, cache1) → cache1 = emptyCache) ∧
    (∀ t username u db0,
      emptyCache.is_token_revoked tokC9 t = false →
      tokC9.payload.sub = some username →
      get_cached_user emptyCache username t = none →
      db0.get_by_username username = some u →
      get_current_user sampleSettings db0 emptyCache tokC9 t =
        .ok (u, cache_user sampleSettings emptyCache u t))) :=
  ⟨rfl, rfl, rfl,
    no_exp_token_never_expires_never_revoked sampleSettings emptyCache tokC9 10
      rfl rfl rfl⟩

/-- C3 counterexample: the access token built by `create_access_token` carries
no issued-at claim, contradicting the spec sentence that the claim set is
{sub, iat, exp}; the source encodes only sub and exp. -/
theorem create_access_token_omits_iat :
    (create_access_token sampleSettings "alice" 1000).payload.iat = none := rfl

/-- C3 amended: for every username and issuance time, the token produced by
`create_access_token` carries exactly the claims sub = username and
exp = now + ACCESS_TTL (no iat claim) and is signed with the service secret
using the configured symmetric algorithm. -/
theorem create_access_token_claims (s : Settings) (username : String) (now : Int) :
    create_access_token s username now =
      { payload := { sub := some username,
                     exp := some (now + s.ACCESS_TOKEN_EXPIRE_MINUTES * 60),
                     iat := none },
        key := s.SECRET_KEY, alg := s.ALGORITHM } := rfl

/-- C4 counterexample: on a token whose exp (50) is already in the past at call
time (100), `revoke_access_token` does not complete without error: the initial
decode raises HTTP 401 invalid_token. -/
theorem revoke_access_token_expired_raises :
    revoke_access_token sampleSettings emptyCache expiredToken 100 =
      .error (.http 401 .invalid_token) := rfl

/-- C4 amended: `revoke_access_token` decodes the token to recover its exp
claim; a token already expired is rejected by the decode with HTTP 401
invalid_token rather than completing silently; when decode succeeds and a
(nonzero) exp claim is present, the raw token is inserted into the blacklist
with TTL = exp - now; when the exp claim is absent the call completes without
error and without adding a blacklist entry. -/
theorem revoke_access_token_behaviour (s : Settings) (cache : CacheState)
    (token : JwtToken) (now : Int)
    (hkey : token.key = s.SECRET_KEY) (halg : token.alg = s.ALGORITHM) :
    (∀ e, token.payload.exp = some e → e ≤ now →
      revoke_access_token s cache token now = .error (.http 401 .invalid_token)) ∧
    (∀ e, token.payload.exp = some e → now < e → 0 ≤ now →
      revoke_access_token s cache token now =
        .ok { cache with blacklist := (token, now + (e - now)) :: cache.blacklist }) ∧
    (token.payload.exp = none →
      revoke_access_token s cache token now = .ok cache) := by
  have hsig : (token.key == s.SECRET_KEY && token.alg == s.ALGORITHM) = true := by
    simp [hkey, halg]
  refine ⟨?_, ?_, ?_⟩
  · intro e he hle
    simp [revoke_access_token, decode_and_validate_access_token, hsig, he, hle]
  · intro e he hlt hnow
    have hne : (e == 0) = false := by simp; omega
    simp [revoke_access_token, decode_and_validate_access_token, hsig, he,
      not_le.mpr hlt, hne, CacheState.revoke_token, hlt]
  · intro he
    simp [revoke_access_token, decode_and_validate_access_token, hsig, he]

/-- Witness for C4 amended: a validly signed token with exp = 500 revoked at
time 100 lands on the blacklist with expiry 100 + (500 - 100). -/
theorem revoke_access_token_behaviour_witness :
    liveToken.key = sampleSettings.SECRET_KEY ∧
    liveToken.alg = sampleSettings.ALGORITHM ∧
    liveToken.payload.exp = some 500 ∧
    revoke_access_token sampleSettings emptyCache liveToken 100 =
      .ok { emptyCache with
            blacklist := [(liveToken, 100 + (500 - 100))] } :=
  ⟨rfl, rfl, rfl,
    (revoke_access_token_behaviour sampleSettings emptyCache liveToken 100
      rfl rfl).2.1 500 rfl (by decide) (by decide)⟩

/-- C5: when the profile is not cached and the stored record is unconfirmed,
`authenticate` fails with 401 email-not-confirmed for every choice of password
and of password-verifier; in particular the failure is independent of whether
the password is correct, because the confirmed check precedes verification. -/
theorem authenticate_unconfirmed_rejected (checkpw : String → String → Bool)
    (s : Settings) (db : DB) (cache : CacheState) (username password : String)
    (now : Int) (user : User)
    (hmiss : get_cached_user cache username now = none)
    (hfound : db.get_by_username username = some user)
    (hconf : user.confirmed = some false) :
    authenticate checkpw s db cache username password now =
      .error (.http 401 .authentificate_email_not_confirmed) := by
  simp [authenticate, hmiss, hfound, hconf, truthy]

/-- Witness for C5: unconfirmed bob with a verifier that accepts every
password (the password is correct) is still rejected with 401
email-not-confirmed. -/
theorem authenticate_unconfirmed_rejected_witness :
    get_cached_user emptyCache "bob" 0 = none ∧
    dbC5.get_by_username "bob" = some bob ∧
    bob.confirmed = some false ∧
    authenticate (fun _ _ => true) sampleSettings dbC5 emptyCache "bob" "pw123456" 0 =
      .error (.http 401 .authentificate_email_not_confirmed) :=
  ⟨rfl, rfl, rfl,
    authenticate_unconfirmed_rejected (fun _ _ => true) sampleSettings dbC5
      emptyCache "bob" "pw123456" 0 bob rfl rfl rfl⟩

/-- C6: on a cache miss, an unknown username and a wrong password on an
existing confirmed user produce the same 401 error carrying the same message
entry (authenticate_wrong_user), so the two causes are indistinguishable in
the response. -/
theorem authenticate_indistinguishable_failures (checkpw : String → String → Bool)
    (s : Settings) (db : DB) (cache : CacheState) (ghost real password : String)
    (now : Int) (user : User) (hp : String)
    (hmiss1 : get_cached_user cache ghost now = none)
    (hmiss2 : get_cached_user cache real now = none)
    (habsent : db.get_by_username ghost = none)
    (hfound : db.get_by_username real = some user)
    (hconf : user.confirmed = some true)
    (hhp : user.hash_password = some hp)
    (hwrong : checkpw password hp = false) :
    authenticate checkpw s db cache ghost password now =
      .error (.http 401 .authenticate_wrong_user) ∧
    authenticate checkpw s db cache real password now =
      .error (.http 401 .authenticate_wrong_user) ∧
    authenticate checkpw s db cache ghost password now =
      authenticate checkpw s db cache real password now := by
  have h1 : authenticate checkpw s db cache ghost password now =
      .error (.http 401 .authenticate_wrong_user) := by
    simp [authenticate, hmiss1, habsent]
  have h2 : authenticate checkpw s db cache real password now =
      .error (.http 401 .authenticate_wrong_user) := by
    simp [authenticate, hmiss2, hfound, hconf, truthy, hhp, hwrong]
  exact ⟨h1, h2, h1.trans h2.symm⟩

/-- Witness for C6: unknown username "nobody" and wrong password for confirmed
alice yield the identical 401 response. -/
theorem authenticate_indistinguishable_failures_witness :
    get_cached_user emptyCache "nobody" 0 = none ∧
    get_cached_user emptyCache "alice" 0 = none ∧
    dbC6.get_by_username "nobody" = none ∧
    dbC6.get_by_username "alice" = some alice ∧
    alice.confirmed = some true ∧
    alice.hash_password = some "bcrypt-digest-alice" ∧
    (authenticate (fun _ _ => false) sampleSettings dbC6 emptyCache "nobody" "guess" 0 =
      .error (.http 401 .authenticate_wrong_user) ∧
    authenticate (fun _ _ => false) sampleSettings dbC6 emptyCache "alice" "guess" 0 =
      .error (.http 401 .authenticate_wrong_user) ∧
    authenticate (fun _ _ => false) sampleSettings dbC6 emptyCache "nobody" "guess" 0 =
      authenticate (fun _ _ => false) sampleSettings dbC6 emptyCache "alice" "guess" 0) :=
  ⟨rfl, rfl, rfl, rfl, rfl, rfl,
    authenticate_indistinguishable_failures (fun _ _ => false) sampleSettings dbC6
      emptyCache "nobody" "alice" "guess" 0 alice "bcrypt-digest-alice"
      rfl rfl rfl rfl rfl rfl rfl⟩

/-- C7: for every resolved user, the moderator gate passes exactly the
moderator and admin roles and fails every other role with 403, and the admin
gate passes exactly the admin role; in particular a user-role identity fails
the moderator-or-admin gate with 403 while an admin-role identity passes it. -/
theorem role_gate_characterization (u : User) :
    (get_current_moderator_user u =
      if u.role = UserRole.moderator ∨ u.role = UserRole.admin then .ok u
      else .error (.http 403 .role_access_info)) ∧
    (get_current_admin_user u =
      if u.role = UserRole.admin then .ok u
      else .error (.http 403 .role_access_info)) := by
  cases hr : u.role <;>
    simp [get_current_moderator_user, get_current_admin_user, hr]

/-- C8: when the username is in the fast-path cache, `authenticate` returns
the rebuilt cached projection for every password and every password-verifier
(neither the password check nor the confirmed check runs), and the returned
object carries no password hash and no confirmed flag. -/
theorem authenticate_cache_hit_bypasses_checks (checkpw : String → String → Bool)
    (s : Settings) (db : DB) (cache : CacheState) (username password : String)
    (now : Int) (resp : UserResponse)
    (hhit : cache.lookup_user username now = some resp) :
    authenticate checkpw s db cache username password now =
      .ok (resp.to_user, cache) ∧
    resp.to_user.hash_password = none ∧
    resp.to_user.confirmed = none := by
  refine ⟨?_, rfl, rfl⟩
  simp [authenticate, get_cached_user, hhit]

/-- Witness for C8: with alice cached, login succeeds under a verifier that
rejects every password, and the returned object has unset hash and confirmed
attributes. -/
theorem authenticate_cache_hit_bypasses_checks_witness :
    cacheC8.lookup_user "alice" 0 = some respAlice ∧
    (authenticate (fun _ _ => false) sampleSettings emptyDb cacheC8 "alice" "anything" 0 =
      .ok (respAlice.to_user, cacheC8) ∧
    respAlice.to_user.hash_password = none ∧
    respAlice.to_user.confirmed = none) :=
  ⟨rfl,
    authenticate_cache_hit_bypasses_checks (fun _ _ => false) sampleSettings emptyDb
      cacheC8 "alice" "anything" 0 respAlice rfl⟩

/-- C10: when no user record matches the email, the request_email handler
dereferences None (user.confirmed is evaluated before the `if user:` guard)
and fails with AttributeError, a server error, rather than any domain error. -/
theorem request_email_absent_user_attribute_error (db : DB) (email : String)
    (habsent : db.get_user_by_email email = none) :
    request_email db email = .error .attributeError := by
  simp [request_email, habsent]

/-- Witness for C10: an empty store and any email address. -/
theorem request_email_absent_user_attribute_error_witness :
    emptyDb.get_user_by_email "ghost@x.com" = none ∧
    request_email emptyDb "ghost@x.com" = .error .attributeError :=
  ⟨rfl, request_email_absent_user_attribute_error emptyDb "ghost@x.com" rfl⟩

end ContactsApi
